import Mathlib

/-!
Verification of the AgentOS workflow control engine (samibs/supperagent).

Shallow embedding of the Python sources:
* `agent_os/agents/base.py`   — the capability dispatcher `Agent._invoke_llm`
  together with `Agent._get_available_clients`;
* `agent_os/agents/coder.py`  — the TRM refinement loop (`CoderAgent.execute_task`,
  `CoderAgent._check_confidence`);
* `agent_os/agents/security.py` and `agent_os/agents/troubleshooting_qa.py`
  — the two review workers;
* `agent_os/orchestrator.py`  — the resumable 7-phase workflow state machine
  (`Orchestrator.run_workflow`, `Orchestrator._load_state`).

External collaborators (the LLM providers, the `ruff` linter, the test
runner, the operator console) are modelled as oracle functions supplied as
parameters; everything the engine itself computes is embedded concretely.
The agents call the dispatcher as `self._invoke_llm(model=..., prompt=...)`
although its signature is `_invoke_llm(self, preferred_model, prompt)`; this
keyword binding (a TypeError in Python) is embedded by `invoke_llm_kwcall`,
and the `patched_`-prefixed definitions embed the loop as it runs when
`_invoke_llm` is patched by a keyword-accepting mock, which is how the
repository test suite exercises it.
-/

namespace AgentOS

/-! Section: capability dispatcher (`agent_os/agents/base.py`) -/

/-- The three backend families, `LLMModel = Literal["claude", "gemini", "codex"]`. -/
inductive Family
  | claude
  | gemini
  | codex
deriving DecidableEq, Repr

/-- The string name of a family, as used in error messages and ledger files. -/
def family_name : Family → String
  | Family.claude => "claude"
  | Family.gemini => "gemini"
  | Family.codex => "codex"

/-- Which backend families are currently available.  In the source a family is
available iff its `get_*_client()` call returns a client, i.e. iff its API key
is present and non-placeholder in `config.yaml` at the moment of the check
(`llm_client.get_anthropic_client` / `get_gemini_client` / `get_openai_client`). -/
structure Avail where
  claude : Bool
  gemini : Bool
  codex : Bool
deriving DecidableEq, Repr

def is_available (av : Avail) : Family → Bool
  | Family.claude => av.claude
  | Family.gemini => av.gemini
  | Family.codex => av.codex

/-- Embedding of `Agent._get_available_clients`: the available families in the fixed
fallback priority order Claude -> Gemini -> Codex. -/
def available_clients (av : Avail) : List Family :=
  (if av.claude then [Family.claude] else [])
    ++ (if av.gemini then [Family.gemini] else [])
    ++ (if av.codex then [Family.codex] else [])

/-- One `knowledge_manager.record_interaction` ledger entry (stored in the
per-family markdown file; the 500-character snippet truncation applied at
formatting time is not modelled). -/
structure DispatchRecord where
  model_family : Family
  success : Bool
  prompt : String
  response : String
deriving DecidableEq, Repr

/-- The early-return payload of `_invoke_llm` when `available_clients` is empty. -/
def no_clients_msg : String :=
  "ERROR: No LLM clients are configured. Please check your config.yaml."

/-- The `except Exception` payload of `_invoke_llm`:
`ERROR: API call to <family> failed. Details: <e>` from the `except` block. -/
def api_error_text (fam : Family) (e : String) : String :=
  "ERROR: API call to \x27" ++ family_name fam ++ "\x27 failed. Details: " ++ e

/-- Embedding of `Agent._invoke_llm`.  Here `cl fam prompt` models the body of the `try` block
(the model-name config lookup followed by the provider call):
`Except.ok r` is a normal response, `Except.error e` is any raised exception
with message `e`.  The returned list is the sequence of ledger entries the
invocation appends (written in the `finally` block).  The function is total:
no exception ever escapes to the caller. -/
def invoke_llm (av : Avail) (cl : Family → String → Except String String)
    (preferred_model : Family) (prompt : String) : String × List DispatchRecord :=
  match available_clients av with
  | [] => (no_clients_msg, [])
  | first :: rest =>
    let model_family_to_use :=
      if preferred_model ∈ first :: rest then preferred_model else first
    match cl model_family_to_use prompt with
    | Except.ok response =>
        (response,
         [{ model_family := model_family_to_use, success := true,
            prompt := prompt, response := response }])
    | Except.error e =>
        let response := api_error_text model_family_to_use e
        (response,
         [{ model_family := model_family_to_use, success := false,
            prompt := prompt, response := response }])

/-- A concrete always-succeeding client, used only to instantiate witnesses. -/
def demo_clients_ok : Family → String → Except String String :=
  fun _ p => Except.ok ("resp:" ++ p)

/-- A concrete always-raising client, used only to instantiate witnesses. -/
def demo_clients_err : Family → String → Except String String :=
  fun _ _ => Except.error "boom"

/-! Section: TRM refinement loop (`agent_os/agents/coder.py`) -/

def MAX_CYCLES : Nat := 16

def CRITIQUE_LOOPS : Nat := 6

/-- The threshold `7 + (cycle_number // 4)` from `_check_confidence`. -/
def confidence_threshold (cycle_number : Nat) : Nat := 7 + cycle_number / 4

/-- Python `int()` applied to a string of ASCII digit characters (decimal
left fold).  It is only ever applied to the output of
`filter(str.isdigit, ...)`, which in this model is all ASCII digits. -/
def py_int_digits (ds : List Char) : Nat :=
  ds.foldl (fun n ch => 10 * n + (ch.toNat - 48)) 0

/-- The parse-and-compare block inside the `try` of
`CoderAgent._check_confidence` (everything after the `_invoke_llm` call),
applied to a response string: `score_str` is the join of
`filter(str.isdigit, score_response)`, empty means "could not parse, default
to low confidence"; otherwise `score = int(score_str)` and
`is_confident = score >= 7 + cycle_number // 4`.  In the source as written
this block is unreachable — the `self._invoke_llm(model=..., ...)` call above
it raises TypeError, caught by `except (ValueError, TypeError)` into `False`
(see `py_check_confidence`) — and it runs only when `_invoke_llm` is patched
to accept the keyword, as in the TRM test of the repository. -/
def confidence_parse_block (cycle_number : Nat) (score_response : String) : Bool :=
  let score_str := score_response.data.filter Char.isDigit
  if score_str = [] then false
  else decide (confidence_threshold cycle_number ≤ py_int_digits score_str)

/-- Modelled from the spec: the claimed parse of "the first run of digits in
the response" — drop to the first digit, take the maximal digit run, fail if
there is none.  This definition follows the words of the claim and exists only to
be compared against `confidence_parse_block`. -/
def spec_first_run_score (s : String) : Option Nat :=
  match (s.data.dropWhile fun ch => !ch.isDigit).takeWhile Char.isDigit with
  | [] => none
  | ds => some (py_int_digits ds)

/-- Modelled from the spec: the confidence decision the claim describes, with
the score taken from the first run of digits. -/
def spec_check_confidence (cycle_number : Nat) (score_response : String) : Bool :=
  match spec_first_run_score score_response with
  | none => false
  | some score => decide (confidence_threshold cycle_number ≤ score)

/-- The value of the digit-concatenation parse, stated independently of the
code: the decimal numeral formed by all digit characters of the response in
order (little-endian `Nat.ofDigits` of the reversed digit list), `none` when
the response contains no digit. -/
def digit_concat_value (s : String) : Option Nat :=
  match s.data.filter Char.isDigit with
  | [] => none
  | ds => some (Nat.ofDigits 10 ((ds.map fun ch => ch.toNat - 48).reverse))

/-- Prompt of `CoderAgent._draft_initial_answer`. -/
def draft_prompt (component_specification : String) : String :=
  "Generate a complete, rough draft of a Python module for the following specification. Focus on getting a full implementation down quickly; refinement will happen later.\n\n"
    ++ component_specification

/-- Prompt of each round of `CoderAgent._self_critique_loop`. -/
def critique_prompt (component_specification draft reasoning_scratchpad : String) : String :=
  "You are self-critiquing a draft solution. Your goal is to improve your reasoning. The original problem was: \x27"
    ++ component_specification
    ++ "\x27\n\nThe current draft is:\n```python\n"
    ++ draft
    ++ "\n```\n\nYour current reasoning is: \x27"
    ++ reasoning_scratchpad
    ++ "\x27\n\nReview your reasoning. Does it fully address the problem? Where are the logical errors or gaps? Provide a new, more refined line of reasoning."

/-- Prompt of `CoderAgent._revise_answer`. -/
def revise_prompt (component_specification original_draft refined_reasoning : String) : String :=
  "You will revise a code draft. You have already thought deeply about the problem. Use your refined reasoning to create a new, much better version of the code.\n\nOriginal Specification:\n"
    ++ component_specification
    ++ "\n\nOriginal (Flawed) Draft:\n```python\n"
    ++ original_draft
    ++ "\n```\n\nYour Final, Refined Reasoning:\n"
    ++ refined_reasoning
    ++ "\n\nNow, write the new, complete, and correct Python module."

/-- The linter self-correction prompt from `CoderAgent.execute_task`. -/
def correction_prompt (linter_issues new_draft : String) : String :=
  "Your previous code draft has been reviewed by the `ruff` linter, which found the following issues. Please fix these specific issues and provide the complete, corrected code.\n\n--- Linter Issues ---\n"
    ++ linter_issues
    ++ "\n\n--- Original Code with Issues ---\n```python\n"
    ++ new_draft
    ++ "\n```\n\nYour task is to return only the full, corrected Python code."

/-- Prompt of `CoderAgent._check_confidence`. -/
def confidence_prompt (new_draft : String) : String :=
  "You are a code reviewer. On a scale of 1 to 10, where 1 is \x27completely wrong\x27 and 10 is \x27perfectly correct and production-ready\x27, rate the following code. Your answer must be a single integer and nothing else.\n\n--- Code to Rate ---\n```python\n"
    ++ new_draft
    ++ "\n```"

/-- Oracles for the refinement loop run against a PATCHED dispatcher: in
`tests/test_agent_orchestrator.py::TestCoderAgentTRM` the repository patches
`Agent._invoke_llm` with a mock that accepts the `model=` keyword and returns
scripted text, which is the intended dispatcher behaviour (the unpatched
call raises TypeError, see `invoke_llm_kwcall` and `py_execute_task`).
`llm k prompt` is the text the patched call returns for the `k`-th call of
this invocation (each call may answer differently, so every sequence of
confidence outcomes is representable).
`linter draft` models `_run_linter`: `none` when `ruff` reports no issues
(empty stdout), `some t` for a non-empty issue report or the
"Linter execution failed" text when `ruff` is missing or times out; the Python
`if linter_issues:` truthiness test coincides with `isSome` because both
non-`None` outcomes are non-empty strings. -/
structure TrmEnv where
  llm : Nat → String → String
  linter : String → Option String

/-- The `for` body of `CoderAgent._self_critique_loop`, `n` rounds remaining:
each round replaces (never accumulates) the reasoning scratchpad with the
LLM answer to the critique prompt.  Returns the final scratchpad and the
advanced call counter. -/
def critique_rounds (env : TrmEnv) (component_specification draft : String) :
    Nat → Nat → String → String × Nat
  | 0, k, reasoning_scratchpad => (reasoning_scratchpad, k)
  | n + 1, k, reasoning_scratchpad =>
      critique_rounds env component_specification draft n (k + 1)
        (env.llm k (critique_prompt component_specification draft reasoning_scratchpad))

/-- Embedding of `CoderAgent._self_critique_loop`: `CRITIQUE_LOOPS` rounds starting from
the fixed initial scratchpad. -/
def self_critique_loop (env : TrmEnv) (draft component_specification : String)
    (k : Nat) : String × Nat :=
  critique_rounds env component_specification draft CRITIQUE_LOOPS k
    "Initial thoughts: The draft seems to cover the basics."

/-- One iteration of the `for i in range(MAX_CYCLES)` body of
`CoderAgent.execute_task` under the patched dispatcher: (re-)draft if the
draft is empty, critique, revise, lint and self-correct if the linter
reported issues, then run the confidence check.  Returns the new
`current_draft`, the advanced call counter, and the confidence decision. -/
def patched_trm_cycle (env : TrmEnv) (component_specification : String) (i k : Nat)
    (current_draft : String) : String × Nat × Bool :=
  let dk :=
    if current_draft = "" then
      (env.llm k (draft_prompt component_specification), k + 1)
    else (current_draft, k)
  let rk := self_critique_loop env dk.1 component_specification dk.2
  let revised := env.llm rk.2 (revise_prompt component_specification dk.1 rk.1)
  let nk :=
    match env.linter revised with
    | none => (revised, rk.2 + 1)
    | some linter_issues =>
        (env.llm (rk.2 + 1) (correction_prompt linter_issues revised), rk.2 + 2)
  let response := env.llm nk.2 (confidence_prompt nk.1)
  (nk.1, nk.2 + 1, confidence_parse_block i response)

/-- The `for i in range(MAX_CYCLES)` loop of `CoderAgent.execute_task` under
the patched dispatcher, `fuel` iterations remaining, `i` the current cycle
index, `k` the call counter, returning `(current_draft, number of cycle
bodies executed)`.  The loop `break`s right after a confident check and
otherwise runs until the range is exhausted. -/
def patched_trm_loop (env : TrmEnv) (component_specification : String) :
    Nat → Nat → Nat → String → String × Nat
  | 0, i, _, current_draft => (current_draft, i)
  | fuel + 1, i, k, current_draft =>
      let r := patched_trm_cycle env component_specification i k current_draft
      if r.2.2 then (r.1, i + 1)
      else patched_trm_loop env component_specification fuel (i + 1) r.2.1 r.1

/-- The body of `CoderAgent.execute_task` under the patched dispatcher — the
configuration in which the TRM test of the repository demonstrates the
intended bounded loop (the faithful unpatched method is `py_execute_task`,
which raises).  The Python method returns only the first component (the
final `current_draft`); the second component is the observed number of
executed cycles, reported for the statement of the cycle bound. -/
def patched_execute_task (env : TrmEnv) (component_specification : String) : String × Nat :=
  patched_trm_loop env component_specification MAX_CYCLES 0 0 ""

/-- The cycle-level transition on `(i, k, current_draft)` induced by one
execution of the loop body, disregarding the confidence decision. -/
def cycle_trans (env : TrmEnv) (component_specification : String)
    (st : Nat × Nat × String) : Nat × Nat × String :=
  (st.1 + 1,
   (patched_trm_cycle env component_specification st.1 st.2.1 st.2.2).2.1,
   (patched_trm_cycle env component_specification st.1 st.2.1 st.2.2).1)

/-- The `m`-fold iteration of `cycle_trans`: the `(i, k, current_draft)` state
after `m` executed cycle bodies. -/
def cycle_iter (env : TrmEnv) (component_specification : String) :
    Nat → Nat × Nat × String → Nat × Nat × String
  | 0, st => st
  | m + 1, st => cycle_iter env component_specification m
      (cycle_trans env component_specification st)

/-! Section: workflow engine (`agent_os/orchestrator.py`) -/

/-- The workflow phases, in the fixed order of the cascading `run_workflow`
blocks.  The source stores them as the strings "Idle", "Phase 1: Planning",
"Phase 2: Generation", "Phase 3: Initial Review",
"Phase 4: Feedback & Refinement", "Phase 5: Fix & Optimization",
"Phase 6: Verification & Testing", "Phase 7: Finalization", "Completed";
these nine values are exactly the ones `_save_state` ever persists. -/
inductive Phase
  | idle
  | planning
  | generation
  | review
  | feedback
  | repair
  | verification
  | finalization
  | completed
deriving DecidableEq, Repr

/-- The seven working phases in order (the blocks of `run_workflow` that do
work and checkpoint; the `Completed` block only logs and prints). -/
def work_phases : List Phase :=
  [Phase.planning, Phase.generation, Phase.review, Phase.feedback,
   Phase.repair, Phase.verification, Phase.finalization]

/-- Position of a phase in the sequence of working blocks: the number of
working phases that lie strictly before it (a checkpoint at this phase has
already executed exactly those). -/
def phase_index : Phase → Nat
  | Phase.idle => 0
  | Phase.planning => 0
  | Phase.generation => 1
  | Phase.review => 2
  | Phase.feedback => 3
  | Phase.repair => 4
  | Phase.verification => 5
  | Phase.finalization => 6
  | Phase.completed => 7

/-- One `pending_tasks` entry: `{"source": ..., "feedback": ...}`.  The
`feedback` value is the stored attribute, which can be `None`. -/
structure Task where
  source : String
  feedback : Option String
deriving DecidableEq, Repr

/-- The persisted `Orchestrator` state: exactly the attributes written by
`_save_state` / initialised in `__init__` (with their `__init__` defaults). -/
structure OrchState where
  project_requirements : String := ""
  architect_plan : Option String := none
  db_plan : Option String := none
  ui_plan : Option String := none
  full_plan : Option String := none
  generated_code : Option String := none
  qa_feedback : Option String := none
  security_feedback : Option String := none
  pending_tasks : List Task := []
  fixed_code : Option String := none
  qa_verification : Option String := none
  final_documentation : Option String := none
  workflow_phase : Phase := Phase.idle
deriving DecidableEq, Repr

/-- The fresh state built by `Orchestrator.__init__` before `_load_state`. -/
def fresh_state : OrchState := {}

/-- The specialized agents, as the orchestrator sees them: each
`execute_task` is an oracle from the task text to the returned artifact text.
(`Agent._invoke_llm` is total, so agent results are plain strings; failures
surface as error text inside those strings.) -/
structure Agents where
  architect : String → String
  database : String → String
  ui_ux : String → String
  coder : String → String
  qa : String → String
  security : String → String
  documentation : String → String

/-- Python rendering of a possibly-`None` attribute when it is handed to an
agent and interpolated into an f-string prompt: `None` prints as "None". -/
def py_str : Option String → String
  | none => "None"
  | some s => s

/-- Python `repr` of a possibly-`None` feedback value inside the
`pending_tasks` list (quote escaping inside the text is not modelled; no
claim reads this string). -/
def py_repr_opt : Option String → String
  | none => "None"
  | some s => "\x27" ++ s ++ "\x27"

/-- Python `repr` of one `pending_tasks` dict. -/
def task_repr (t : Task) : String :=
  "\x7b\x27source\x27: \x27" ++ t.source ++ "\x27, \x27feedback\x27: "
    ++ py_repr_opt t.feedback ++ "\x7d"

/-- Python `repr` of the `pending_tasks` list, as interpolated into the
Phase 5 fix prompt `f"...{self.pending_tasks}"`. -/
def tasks_repr (ts : List Task) : String :=
  "[" ++ String.intercalate ", " (ts.map task_repr) ++ "]"

/-- Phase 1: Planning — architect, then database on the architect plan, then
UI/UX on the fixed literal, then the combined plan; advance to Generation. -/
def planning_step (ag : Agents) (s : OrchState) : OrchState :=
  let architect_plan := ag.architect s.project_requirements
  let db_plan := ag.database architect_plan
  let ui_plan := ag.ui_ux "User authentication and profile page."
  let full_plan := architect_plan ++ "\n\n" ++ db_plan ++ "\n\n" ++ ui_plan
  { s with architect_plan := some architect_plan, db_plan := some db_plan,
           ui_plan := some ui_plan, full_plan := some full_plan,
           workflow_phase := Phase.generation }

/-- Phase 2: Generation — the coder on the full plan; advance to Review. -/
def generation_step (ag : Agents) (s : OrchState) : OrchState :=
  { s with generated_code := some (ag.coder (py_str s.full_plan)),
           workflow_phase := Phase.review }

/-- Phase 3: Initial Review — QA and Security both submitted to a two-worker
`ThreadPoolExecutor` on the same generated code and joined with
`future.result()`; the model records the joined value of both futures.
Advance to Feedback. -/
def review_step (ag : Agents) (s : OrchState) : OrchState :=
  let qa_feedback := ag.qa (py_str s.generated_code)
  let security_feedback := ag.security (py_str s.generated_code)
  { s with qa_feedback := some qa_feedback,
           security_feedback := some security_feedback,
           workflow_phase := Phase.feedback }

/-- Python `str.lower()` (ASCII case mapping; the non-ASCII case folding of
Python is not modelled — no claim involves it). -/
def py_lower (s : String) : String := String.mk (s.data.map Char.toLower)

/-- Python `str.strip()`: remove leading and trailing whitespace. -/
def py_strip (s : String) : String :=
  String.mk (((s.data.dropWhile Char.isWhitespace).reverse.dropWhile
    Char.isWhitespace).reverse)

/-- Phase 4: Feedback & Refinement — build the two automated entries, then
test whether `user_input.lower().strip()` equals the approve sentinel; anything else appends a
"Human Operator" entry with the raw input text.  Advance to Repair
("Phase 5: Fix & Optimization"). -/
def feedback_step (user_input : String) (s : OrchState) : OrchState :=
  let tasks := [{ source := "QA", feedback := s.qa_feedback },
                { source := "Security", feedback := s.security_feedback }]
  let tasks :=
    if py_strip (py_lower user_input) = "approve" then tasks
    else tasks ++ [{ source := "Human Operator", feedback := some user_input }]
  { s with pending_tasks := tasks, workflow_phase := Phase.repair }

/-- Phase 5: Fix & Optimization — the coder on the fix prompt built from the
generated code and the rendered pending tasks; the task queue is then
cleared.  Advance to Verification. -/
def repair_step (ag : Agents) (s : OrchState) : OrchState :=
  let fix_prompt := "Original Code:\n" ++ py_str s.generated_code
      ++ "\n\nReview Feedback:\n" ++ tasks_repr s.pending_tasks
  { s with fixed_code := some (ag.coder fix_prompt), pending_tasks := [],
           workflow_phase := Phase.verification }

/-- Phase 6: Verification & Testing — QA on the fixed code; advance to
Finalization. -/
def verification_step (ag : Agents) (s : OrchState) : OrchState :=
  { s with qa_verification := some (ag.qa (py_str s.fixed_code)),
           workflow_phase := Phase.finalization }

/-- Phase 7: Finalization — documentation on the fixed code; advance to
Completed. -/
def finalization_step (ag : Agents) (s : OrchState) : OrchState :=
  { s with final_documentation := some (ag.documentation (py_str s.fixed_code)),
           workflow_phase := Phase.completed }

/-- The result of one `run_workflow` call.  `executed` lists the working
phase blocks whose bodies ran, in execution order; `saves` lists the
`_save_state` checkpoints in order, each recorded as the `workflow_phase`
value it persisted; `memory_adds` lists the `memory_manager.add_memory`
calls the engine made — `run_workflow` contains no such call (orchestrator.py
does not even import `memory_manager`), so this list is always empty. -/
structure RunResult where
  state : OrchState
  executed : List Phase
  saves : List Phase
  memory_adds : List String
deriving Repr

/-- Embedding of `Orchestrator.run_workflow`: the sequential `if self.workflow_phase == X`
cascade.  The `Idle` guard consumes the goal argument and saves; each phase
block runs iff the (by then possibly updated) phase matches, mutates the
state, advances the phase and saves; the `Completed` block only logs and
prints — it neither mutates nor saves state and exports nothing to the
memory collaborator. -/
def run_workflow (ag : Agents) (user_input : String)
    (project_requirements : String) (s0 : OrchState) : RunResult :=
  let t1 :=
    if s0.workflow_phase = Phase.idle then
      ({ s0 with project_requirements := project_requirements,
                 workflow_phase := Phase.planning }, [Phase.planning])
    else (s0, [])
  let t2 :=
    if t1.1.workflow_phase = Phase.planning then
      (planning_step ag t1.1, [Phase.planning], [Phase.generation])
    else (t1.1, [], [])
  let t3 :=
    if t2.1.workflow_phase = Phase.generation then
      (generation_step ag t2.1, [Phase.generation], [Phase.review])
    else (t2.1, [], [])
  let t4 :=
    if t3.1.workflow_phase = Phase.review then
      (review_step ag t3.1, [Phase.review], [Phase.feedback])
    else (t3.1, [], [])
  let t5 :=
    if t4.1.workflow_phase = Phase.feedback then
      (feedback_step user_input t4.1, [Phase.feedback], [Phase.repair])
    else (t4.1, [], [])
  let t6 :=
    if t5.1.workflow_phase = Phase.repair then
      (repair_step ag t5.1, [Phase.repair], [Phase.verification])
    else (t5.1, [], [])
  let t7 :=
    if t6.1.workflow_phase = Phase.verification then
      (verification_step ag t6.1, [Phase.verification], [Phase.finalization])
    else (t6.1, [], [])
  let t8 :=
    if t7.1.workflow_phase = Phase.finalization then
      (finalization_step ag t7.1, [Phase.finalization], [Phase.completed])
    else (t7.1, [], [])
  { state := t8.1
    executed := t2.2.1 ++ t3.2.1 ++ t4.2.1 ++ t5.2.1 ++ t6.2.1 ++ t7.2.1 ++ t8.2.1
    saves := t1.2 ++ t2.2.2 ++ t3.2.2 ++ t4.2.2 ++ t5.2.2 ++ t6.2.2 ++ t7.2.2 ++ t8.2.2
    memory_adds := [] }

/-- A parsed state document: each persisted key either present with a value
or absent. -/
structure StateDoc where
  project_requirements : Option String := none
  workflow_phase : Option Phase := none
  architect_plan : Option (Option String) := none
  db_plan : Option (Option String) := none
  ui_plan : Option (Option String) := none
  full_plan : Option (Option String) := none
  generated_code : Option (Option String) := none
  qa_feedback : Option (Option String) := none
  security_feedback : Option (Option String) := none
  pending_tasks : Option (List Task) := none
  fixed_code : Option (Option String) := none
  qa_verification : Option (Option String) := none
  final_documentation : Option (Option String) := none

/-- The three outcomes of `Orchestrator._load_state`: the state file is absent,
the file exists but `open`/`json.load` raised
(`IOError`/`json.JSONDecodeError`), or it parsed to a JSON object. -/
inductive LoadOutcome
  | absent
  | unreadable (err : String)
  | parsed (doc : StateDoc)

/-- Embedding of `Orchestrator._load_state`, applied to the `__init__` defaults: absent
file keeps the fresh state; a read/parse failure is caught, logged and sets
`workflow_phase = "Idle"`, leaving every other attribute at its default; a
parsed document overrides exactly the keys it contains (the two explicit
`state.get` reads and the `setattr` loop agree on these values). -/
def load_state : LoadOutcome → OrchState
  | LoadOutcome.absent => fresh_state
  | LoadOutcome.unreadable _ => { fresh_state with workflow_phase := Phase.idle }
  | LoadOutcome.parsed doc =>
      { project_requirements := doc.project_requirements.getD ""
        workflow_phase := doc.workflow_phase.getD Phase.idle
        architect_plan := doc.architect_plan.getD none
        db_plan := doc.db_plan.getD none
        ui_plan := doc.ui_plan.getD none
        full_plan := doc.full_plan.getD none
        generated_code := doc.generated_code.getD none
        qa_feedback := doc.qa_feedback.getD none
        security_feedback := doc.security_feedback.getD none
        pending_tasks := doc.pending_tasks.getD []
        fixed_code := doc.fixed_code.getD none
        qa_verification := doc.qa_verification.getD none
        final_documentation := doc.final_documentation.getD none }

/-- The prompt of `SecurityAgent.execute_task`. -/
def security_prompt (code_snippet : String) : String :=
  "Review the following Python code for security vulnerabilities. Focus on common issues like injection flaws, improper error handling, and insecure dependencies. Provide a list of findings with suggested fixes:\n\n```python\n"
    ++ code_snippet ++ "\n```"

/-- Concrete agents used only to instantiate witnesses. -/
def demo_agents : Agents :=
  { architect := fun t => "plan<" ++ t ++ ">"
    database := fun t => "db<" ++ t ++ ">"
    ui_ux := fun t => "ui<" ++ t ++ ">"
    coder := fun t => "code<" ++ t ++ ">"
    qa := fun t => "qa<" ++ t ++ ">"
    security := fun t => "sec<" ++ t ++ ">"
    documentation := fun t => "docs<" ++ t ++ ">" }

/-- A concrete checkpoint written at the Review phase boundary, used only to
instantiate witnesses. -/
def demo_review_state : OrchState :=
  { fresh_state with project_requirements := "persisted goal"
                     full_plan := some "the plan"
                     generated_code := some "the code"
                     workflow_phase := Phase.review }

/-- A concrete checkpoint at the Feedback phase boundary, used for the C4
counterexample and witnesses. -/
def demo_feedback_state : OrchState :=
  { fresh_state with qa_feedback := some "QA findings"
                     security_feedback := some "Security findings"
                     workflow_phase := Phase.feedback }

/-! Section: the keyword-argument call from the agents to the dispatcher -/

/-- The CPython message raised for a keyword that matches no parameter. -/
def kwarg_type_error (kw : String) : String :=
  "TypeError: _invoke_llm() got an unexpected keyword argument \x27" ++ kw ++ "\x27"

/-- A Python call `self._invoke_llm(<kw>=fam, prompt=p)` bound against the
signature `_invoke_llm(self, preferred_model, prompt)`.  When the keyword is
`preferred_model` (as the dispatcher tests of the repository call it) the
argument binds and the dispatcher body runs; for any other keyword — every
agent writes `model=` — Python raises TypeError at the call site, before the
dispatcher body and its swallow-all `try` are ever entered, so no ledger
entry is written and nothing converts the exception to text. -/
def invoke_llm_kwcall (kw : String) (av : Avail)
    (cl : Family → String → Except String String) (fam : Family) (prompt : String) :
    Except String (String × List DispatchRecord) :=
  if kw = "preferred_model" then Except.ok (invoke_llm av cl fam prompt)
  else Except.error (kwarg_type_error kw)

/-- Faithful `CoderAgent._draft_initial_answer`: a single
`self._invoke_llm(model="codex", prompt=...)` call whose exception (if any)
propagates to the caller. -/
def py_draft_initial_answer (av : Avail) (cl : Family → String → Except String String)
    (component_specification : String) : Except String String :=
  (invoke_llm_kwcall "model" av cl Family.codex
    (draft_prompt component_specification)).map Prod.fst

/-- The `for` body of the faithful `CoderAgent._self_critique_loop`: each
round replaces the scratchpad with the result of a
`self._invoke_llm(model="codex", ...)` call; an exception propagates. -/
def py_self_critique_rounds (av : Avail) (cl : Family → String → Except String String)
    (component_specification draft : String) : Nat → String → Except String String
  | 0, reasoning_scratchpad => Except.ok reasoning_scratchpad
  | n + 1, reasoning_scratchpad => do
      let r ← (invoke_llm_kwcall "model" av cl Family.codex
        (critique_prompt component_specification draft reasoning_scratchpad)).map Prod.fst
      py_self_critique_rounds av cl component_specification draft n r

/-- Faithful `CoderAgent._self_critique_loop`. -/
def py_self_critique_loop (av : Avail) (cl : Family → String → Except String String)
    (draft component_specification : String) : Except String String :=
  py_self_critique_rounds av cl component_specification draft CRITIQUE_LOOPS
    "Initial thoughts: The draft seems to cover the basics."

/-- Faithful `CoderAgent._revise_answer`. -/
def py_revise_answer (av : Avail) (cl : Family → String → Except String String)
    (component_specification original_draft refined_reasoning : String) :
    Except String String :=
  (invoke_llm_kwcall "model" av cl Family.codex
    (revise_prompt component_specification original_draft refined_reasoning)).map Prod.fst

/-- Faithful `CoderAgent._check_confidence`: the `try` block first performs
`self._invoke_llm(model="codex", prompt=...)`; the TypeError that call raises
is caught by `except (ValueError, TypeError)` and turned into `False`, so the
parse block below it (`confidence_parse_block`) never runs in the source as
written.  The function never raises. -/
def py_check_confidence (av : Avail) (cl : Family → String → Except String String)
    (cycle_number : Nat) (new_draft : String) : Bool :=
  match invoke_llm_kwcall "model" av cl Family.codex (confidence_prompt new_draft) with
  | Except.error _ => false
  | Except.ok r => confidence_parse_block cycle_number r.1

/-- One iteration of the faithful `CoderAgent.execute_task` loop body:
`execute_task` wraps nothing in `try`, so any exception from the draft,
critique, revise or linter-correction calls propagates; the confidence check
itself never raises. -/
def py_trm_cycle (av : Avail) (cl : Family → String → Except String String)
    (linter : String → Option String) (component_specification : String)
    (i : Nat) (current_draft : String) : Except String (String × Bool) := do
  let draft0 ←
    if current_draft = "" then py_draft_initial_answer av cl component_specification
    else pure current_draft
  let refined ← py_self_critique_loop av cl draft0 component_specification
  let revised ← py_revise_answer av cl component_specification draft0 refined
  let new_draft ←
    match linter revised with
    | none => pure revised
    | some linter_issues =>
        (invoke_llm_kwcall "model" av cl Family.codex
          (correction_prompt linter_issues revised)).map Prod.fst
  pure (new_draft, py_check_confidence av cl i new_draft)

/-- The faithful `for i in range(MAX_CYCLES)` loop of
`CoderAgent.execute_task`. -/
def py_trm_loop (av : Avail) (cl : Family → String → Except String String)
    (linter : String → Option String) (component_specification : String) :
    Nat → Nat → String → Except String String
  | 0, _, current_draft => Except.ok current_draft
  | fuel + 1, i, current_draft => do
      let r ← py_trm_cycle av cl linter component_specification i current_draft
      if r.2 then pure r.1
      else py_trm_loop av cl linter component_specification fuel (i + 1) r.1

/-- Faithful `CoderAgent.execute_task`: `Except.ok` is a returned draft,
`Except.error` an exception propagating to the caller. -/
def py_execute_task (av : Avail) (cl : Family → String → Except String String)
    (linter : String → Option String) (component_specification : String) :
    Except String String :=
  py_trm_loop av cl linter component_specification MAX_CYCLES 0 ""

/-- Faithful `SecurityAgent.execute_task`: a single
`self._invoke_llm(model="gemini", prompt=...)` on the security prompt; an
exception propagates. -/
def py_security_execute_task (av : Avail) (cl : Family → String → Except String String)
    (code_snippet : String) : Except String String :=
  (invoke_llm_kwcall "model" av cl Family.gemini
    (security_prompt code_snippet)).map Prod.fst

/-- The critique prompt of `TroubleshootingQAAgent.execute_task`. -/
def qa_critique_prompt (code_to_review : String) : String :=
  "Critically review the following Python code. Identify potential bugs, inefficiencies, style violations (PEP 8), and areas with poor logging or error handling. Provide a clear, actionable list of feedback.\n\n```python\n"
    ++ code_to_review ++ "\n```"

/-- The test-generation prompt of `TroubleshootingQAAgent.execute_task`. -/
def qa_testgen_prompt (code_to_review : String) : String :=
  "Based on the following Python code, generate a complete and runnable unit test file using Python\x27s built-in `unittest` framework. The code must be self-contained, executable, and import all necessary modules. Do not use placeholder comments.\n\n--- Code to Test ---\n```python\n"
    ++ code_to_review ++ "\n```"

/-- The combined report returned by `TroubleshootingQAAgent.execute_task`. -/
def qa_report (critique unit_tests : String) (tests_passed : Bool)
    (test_output : String) : String :=
  "--- QA Critique ---\n" ++ critique
    ++ "\n\n--- Generated Unit Tests ---\n```python\n" ++ unit_tests
    ++ "\n```\n\n--- Test Execution Results ---\n**Result:** "
    ++ (if tests_passed then "PASSED ✅" else "FAILED ❌")
    ++ "\n\n**Output:**\n```\n" ++ test_output ++ "\n```"

/-- Faithful `TroubleshootingQAAgent.execute_task`: two
`self._invoke_llm(model="gemini", ...)` calls (critique, then test
generation) whose exceptions propagate, then `_run_unit_tests` — modelled by
the `run_tests` oracle returning `(passed, combined output)`, since that tool
catches its own exceptions — and the combined report. -/
def py_qa_execute_task (av : Avail) (cl : Family → String → Except String String)
    (run_tests : String → Bool × String) (code_to_review : String) :
    Except String String := do
  let critique ← (invoke_llm_kwcall "model" av cl Family.gemini
    (qa_critique_prompt code_to_review)).map Prod.fst
  let unit_tests ← (invoke_llm_kwcall "model" av cl Family.gemini
    (qa_testgen_prompt code_to_review)).map Prod.fst
  let tr := run_tests unit_tests
  pure (qa_report critique unit_tests tr.1 tr.2)

/-- Phase 2 with the worker modelled fallibly: `run_workflow` wraps no phase
in `try`/`except`, so an exception from `execute_task` aborts the engine
(`Except.error`) instead of being stored as an artifact. -/
def generation_step_fallible (coder : String → Except String String)
    (s : OrchState) : Except String OrchState :=
  match coder (py_str s.full_plan) with
  | Except.error e => Except.error e
  | Except.ok code =>
      Except.ok { s with generated_code := some code,
                         workflow_phase := Phase.review }

/-- Phase 3 with the workers modelled fallibly: both tasks are submitted to
the two-worker executor, then `future_qa.result()` is awaited first and
re-raises any exception the QA worker raised into the engine;
`future_security.result()` is awaited second and re-raises a security-worker
exception.  Only when both workers return normally are both slots filled and
the phase advanced. -/
def review_step_fallible (qa security : String → Except String String)
    (s : OrchState) : Except String OrchState :=
  match qa (py_str s.generated_code), security (py_str s.generated_code) with
  | Except.error e, _ => Except.error e
  | Except.ok _, Except.error e => Except.error e
  | Except.ok q, Except.ok sec =>
      Except.ok { s with qa_feedback := some q, security_feedback := some sec,
                         workflow_phase := Phase.feedback }

/-- A concrete checkpoint at the Generation phase boundary, used in the
closed evaluation theorems. -/
def demo_generation_state : OrchState :=
  { fresh_state with project_requirements := "persisted goal"
                     full_plan := some "the plan"
                     workflow_phase := Phase.generation }

/-! Section: helper lemmas -/

/-- Membership in the `_get_available_clients` list coincides with the
availability check of the family. -/
theorem mem_available_clients (av : Avail) (f : Family) :
    f ∈ available_clients av ↔ is_available av f = true := by
  obtain ⟨c, g, o⟩ := av
  cases c <;> cases g <;> cases o <;> cases f <;> decide

/-- Unfolding `invoke_llm` when at least one client is available and the call
to the used family succeeds. -/
theorem invoke_llm_used_ok (av : Avail) (cl : Family → String → Except String String)
    (pref : Family) (prompt : String) (f fam : Family) (l : List Family) (r : String)
    (h : available_clients av = f :: l)
    (hfam : fam = if pref ∈ f :: l then pref else f)
    (hcl : cl fam prompt = Except.ok r) :
    invoke_llm av cl pref prompt
      = (r, [{ model_family := fam, success := true, prompt := prompt, response := r }]) := by
  unfold invoke_llm
  rw [h]
  simp only [← hfam, hcl]

/-- Unfolding `invoke_llm` when at least one client is available and the call
to the used family raises. -/
theorem invoke_llm_used_err (av : Avail) (cl : Family → String → Except String String)
    (pref : Family) (prompt : String) (f fam : Family) (l : List Family) (e : String)
    (h : available_clients av = f :: l)
    (hfam : fam = if pref ∈ f :: l then pref else f)
    (hcl : cl fam prompt = Except.error e) :
    invoke_llm av cl pref prompt
      = (api_error_text fam e,
         [{ model_family := fam, success := false, prompt := prompt,
            response := api_error_text fam e }]) := by
  unfold invoke_llm
  rw [h]
  simp only [← hfam, hcl]

/-- The error payload starts with the characters of "ERROR: API call". -/
theorem api_error_text_has_error_marker (fam : Family) (e : String) :
    ("ERROR: API call" : String).data <+: (api_error_text fam e).data := by
  refine ⟨(" to \x27" : String).data ++ ((family_name fam).data
    ++ (("\x27 failed. Details: " : String).data ++ e.data)), ?_⟩
  have h : ("ERROR: API call to \x27" : String).data
      = ("ERROR: API call" : String).data ++ (" to \x27" : String).data := by decide
  unfold api_error_text
  simp [String.data_append, h, List.append_assoc]

/-! Section: claims -/

/-- Claim C3: when the preferred backend family is unavailable but at least
one family is available, `_invoke_llm` succeeds using the first available
family in the fixed preference order (the head of the Claude-Gemini-Codex
`available_clients` list), the caller receives the response of that backend
unchanged — with no indication of the substitution — and the single ledger
entry records the actually-used family, which is not the preferred one. -/
theorem dispatcher_silent_fallback (av : Avail)
    (cl : Family → String → Except String String) (pref : Family) (prompt : String)
    (f : Family) (l : List Family) (r : String)
    (h1 : available_clients av = f :: l)
    (h2 : is_available av pref = false)
    (h3 : cl f prompt = Except.ok r) :
    invoke_llm av cl pref prompt
      = (r, [{ model_family := f, success := true, prompt := prompt, response := r }])
    ∧ f ≠ pref := by
  have hnot : pref ∉ f :: l := by
    rw [← h1, mem_available_clients, h2]
    simp
  have hne : f ≠ pref := by
    intro hEq
    have hf : f ∈ available_clients av := by
      rw [h1]; exact List.mem_cons_self f l
    rw [mem_available_clients, hEq, h2] at hf
    cases hf
  exact ⟨invoke_llm_used_ok av cl pref prompt f f l r h1 (by rw [if_neg hnot]) h3, hne⟩

/-- Witness for C3: Claude preferred but unavailable; Gemini and Codex
available; the call succeeds on Gemini (the first available family) and the
ledger entry names Gemini. -/
theorem dispatcher_silent_fallback_witness :
    invoke_llm ⟨false, true, true⟩ demo_clients_ok Family.claude "task prompt"
      = ("resp:task prompt",
         [{ model_family := Family.gemini, success := true, prompt := "task prompt",
            response := "resp:task prompt" }])
    ∧ Family.gemini ≠ Family.claude :=
  dispatcher_silent_fallback ⟨false, true, true⟩ demo_clients_ok Family.claude
    "task prompt" Family.gemini [Family.codex] "resp:task prompt" rfl rfl rfl

/-- Claim C8: `_invoke_llm` returns the configuration-missing payload with no
ledger entry exactly when zero backend families are available at the moment
of the call; whenever zero families are available nothing at all is appended
to the ledger (in particular no entry claiming success). -/
theorem dispatcher_config_missing (av : Avail)
    (cl : Family → String → Except String String) (pref : Family) (prompt : String) :
    (invoke_llm av cl pref prompt = (no_clients_msg, []) ↔ available_clients av = [])
    ∧ (available_clients av = [] → (invoke_llm av cl pref prompt).2 = []) := by
  constructor
  · constructor
    · intro h
      cases hav : available_clients av with
      | nil => rfl
      | cons f l =>
        cases hcl : cl (if pref ∈ f :: l then pref else f) prompt with
        | ok r =>
            rw [invoke_llm_used_ok av cl pref prompt f _ l r hav rfl hcl] at h
            simp at h
        | error e =>
            rw [invoke_llm_used_err av cl pref prompt f _ l e hav rfl hcl] at h
            simp at h
    · intro h
      unfold invoke_llm
      rw [h]
  · intro h
    unfold invoke_llm
    rw [h]

/-- Witness for C8: with all three families unavailable the invocation
returns the configuration-missing text and writes no ledger entry. -/
theorem dispatcher_config_missing_witness :
    invoke_llm ⟨false, false, false⟩ demo_clients_ok Family.claude "p"
      = (no_clients_msg, []) :=
  (dispatcher_config_missing ⟨false, false, false⟩ demo_clients_ok
    Family.claude "p").1.mpr rfl

/-- Intended-semantics support for C5 (a code_bug claim): the recovery
boundary of the dispatcher itself works as designed — whenever at least one
backend is available and the capability call to the used family raises (any
exception `e`), `_invoke_llm` returns the textual "ERROR: API call ...
failed" payload instead of propagating the exception, recording a failed
ledger entry; and the engine stores whatever text a worker returns verbatim
as the phase artifact (shown for the Generation phase).  What defeats this
design in the source is that the workers never reach the dispatcher body:
see `worker_failure_reaches_engine`. -/
theorem dispatcher_error_payload_swallowed :
    (∀ (av : Avail) (cl : Family → String → Except String String)
       (pref : Family) (prompt : String) (f fam : Family) (l : List Family) (e : String),
       available_clients av = f :: l →
       fam = (if pref ∈ f :: l then pref else f) →
       cl fam prompt = Except.error e →
       invoke_llm av cl pref prompt
         = (api_error_text fam e,
            [{ model_family := fam, success := false, prompt := prompt,
               response := api_error_text fam e }])
       ∧ ("ERROR: API call" : String).data <+: (api_error_text fam e).data)
    ∧ (∀ (ag : Agents) (ui g : String) (s : OrchState),
        s.workflow_phase = Phase.generation →
        (run_workflow ag ui g s).state.generated_code
          = some (ag.coder (py_str s.full_plan))) := by
  constructor
  · intro av cl pref prompt f fam l e h1 h2 h3
    exact ⟨invoke_llm_used_err av cl pref prompt f fam l e h1 h2 h3,
           api_error_text_has_error_marker fam e⟩
  · intro ag ui g s hp
    simp [run_workflow, hp, planning_step, generation_step, review_step,
          feedback_step, repair_step, verification_step, finalization_step]

/-- Concrete instance of the dispatcher-boundary support: all families
available, the Claude call raises "boom"; the result is the error text with
a failed ledger entry, and a run resumed at the Generation phase stores the
coder output verbatim. -/
theorem dispatcher_error_payload_swallowed_witness :
    invoke_llm ⟨true, true, true⟩ demo_clients_err Family.claude "p"
      = (api_error_text Family.claude "boom",
         [{ model_family := Family.claude, success := false, prompt := "p",
            response := api_error_text Family.claude "boom" }])
    ∧ (run_workflow demo_agents "approve" "goal"
          { fresh_state with workflow_phase := Phase.generation }).state.generated_code
        = some (demo_agents.coder (py_str (none : Option String))) :=
  ⟨(dispatcher_error_payload_swallowed.1 ⟨true, true, true⟩ demo_clients_err
      Family.claude "p" Family.claude Family.claude
      [Family.gemini, Family.codex] "boom" rfl rfl rfl).1,
   dispatcher_error_payload_swallowed.2 demo_agents "approve" "goal"
      { fresh_state with workflow_phase := Phase.generation } rfl⟩

/-- Claim C1: resuming `run_workflow` from a state checkpointed at any phase
boundary executes exactly the working phases from that phase on, in the fixed
order Planning, Generation, Review, Feedback, Repair, Verification,
Finalization (ending at Completed) — the list of executed phase blocks is
precisely the suffix of the order starting at the checkpointed phase, so no
completed phase is re-executed and none is skipped; and when the loaded phase
is not Idle the goal argument is ignored entirely (the outcome of the run is
independent of it) and the persisted goal is kept. -/
theorem workflow_resume_exact_suffix (ag : Agents) (ui g g2 : String) (s : OrchState) :
    ((run_workflow ag ui g s).executed = work_phases.drop (phase_index s.workflow_phase)
     ∧ (run_workflow ag ui g s).state.workflow_phase = Phase.completed)
    ∧ (s.workflow_phase ≠ Phase.idle →
        run_workflow ag ui g s = run_workflow ag ui g2 s
        ∧ (run_workflow ag ui g s).state.project_requirements
            = s.project_requirements) := by
  constructor
  · cases hp : s.workflow_phase <;>
      simp [run_workflow, hp, planning_step, generation_step, review_step,
            feedback_step, repair_step, verification_step, finalization_step,
            work_phases, phase_index]
  · intro hne
    cases hp : s.workflow_phase
    case idle => exact absurd hp hne
    all_goals
      exact ⟨by simp [run_workflow, hp],
             by simp [run_workflow, hp, planning_step, generation_step, review_step,
                      feedback_step, repair_step, verification_step,
                      finalization_step]⟩

/-- Witness for C1: a concrete checkpoint written at the Review boundary
resumes with exactly Review, Feedback, Repair, Verification, Finalization,
and two runs resumed from it with different goal arguments coincide while
the persisted goal survives. -/
theorem workflow_resume_exact_suffix_witness :
    (run_workflow demo_agents "approve" "goal A" demo_review_state).executed
      = [Phase.review, Phase.feedback, Phase.repair, Phase.verification,
         Phase.finalization]
    ∧ run_workflow demo_agents "approve" "goal A" demo_review_state
        = run_workflow demo_agents "approve" "goal B" demo_review_state
    ∧ (run_workflow demo_agents "approve" "goal A" demo_review_state).state.project_requirements
        = "persisted goal" :=
  ⟨rfl,
   ((workflow_resume_exact_suffix demo_agents "approve" "goal A" "goal B"
       demo_review_state).2 (by decide)).1,
   ((workflow_resume_exact_suffix demo_agents "approve" "goal A" "goal B"
       demo_review_state).2 (by decide)).2⟩

/-- The refinement loop with `fuel` iterations left, started at cycle `i`,
stops after some `m ≤ fuel` further cycle bodies and returns the draft
obtained by iterating the cycle transition `m` times, together with the
total number of executed cycles. -/
theorem trm_loop_runs_iterated_cycles (env : TrmEnv) (c : String) :
    ∀ (fuel i k : Nat) (d : String), ∃ m, m ≤ fuel ∧
      patched_trm_loop env c fuel i k d = ((cycle_iter env c m (i, k, d)).2.2, i + m) := by
  intro fuel
  induction fuel with
  | zero =>
      intro i k d
      exact ⟨0, Nat.le_refl 0, by simp [patched_trm_loop, cycle_iter]⟩
  | succ n ih =>
      intro i k d
      by_cases hc : (patched_trm_cycle env c i k d).2.2 = true
      · refine ⟨1, by omega, ?_⟩
        simp [patched_trm_loop, hc, cycle_iter, cycle_trans]
      · obtain ⟨m, hm, he⟩ :=
          ih (i + 1) (patched_trm_cycle env c i k d).2.1 (patched_trm_cycle env c i k d).1
        refine ⟨m + 1, by omega, ?_⟩
        rw [show m + 1 = Nat.succ m from rfl]
        simp only [patched_trm_loop, cycle_iter, cycle_trans, Bool.not_eq_true] at *
        rw [hc, he]
        simp
        omega

/-- Intended-semantics support for C2 (a code_bug claim): under the patched
dispatcher — the configuration of the TRM test of the repository, and the
evident intent of the loop — the confidence threshold is `7 + cycle // 4`
(base 7 stepping up every 4 cycles), monotonically non-decreasing in the
cycle index; and for every specification and every behaviour of the LLM and
linter oracles — hence every sequence of confidence outcomes — the loop
executes at most `MAX_CYCLES = 16` cycle bodies and returns exactly the
draft produced by the last executed cycle (the `m`-fold iterate of the cycle
transition), a total function.  The unpatched source raises instead; see
`coder_kwarg_crash`. -/
theorem trm_threshold_monotone_and_bounded :
    (∀ c d, c ≤ d → confidence_threshold c ≤ confidence_threshold d)
    ∧ (∀ c, confidence_threshold c = 7 + c / 4)
    ∧ MAX_CYCLES = 16
    ∧ (∀ (env : TrmEnv) (c : String), ∃ m, m ≤ MAX_CYCLES ∧
        patched_execute_task env c = ((cycle_iter env c m (0, 0, "")).2.2, m)) := by
  refine ⟨?_, fun _ => rfl, rfl, ?_⟩
  · intro c d h
    exact Nat.add_le_add_left (Nat.div_le_div_right h) 7
  · intro env c
    obtain ⟨m, hm, he⟩ := trm_loop_runs_iterated_cycles env c MAX_CYCLES 0 0 ""
    exact ⟨m, hm, by simpa using he⟩

/-- Concrete instance of the support theorem: the threshold at cycle 2 is
below the threshold at cycle 11 by the monotonicity clause, and a patched
oracle that rates every draft "6" for the first cycle and "9" afterwards
stops after exactly 2 of the 16 cycles (the scenario of the TRM test shipped
with the repository). -/
theorem trm_threshold_monotone_and_bounded_witness :
    confidence_threshold 2 ≤ confidence_threshold 11
    ∧ (patched_execute_task ⟨fun k _ => if k = 16 then "9" else "6", fun _ => none⟩
        "Build a simple calculator.").2 = 2 :=
  ⟨trm_threshold_monotone_and_bounded.1 2 11 (by decide), rfl⟩

/-- Counterexample to C4 as stated: the operator input "Approve" is not the
sentinel string "approve", so by the claim a third "Human Operator" entry
with that exact text would be appended — but the code compares
`user_input.lower().strip()`, so "Approve" clears the queue to just the two
automated entries and no third entry appears. -/
theorem feedback_gate_counterexample :
    (feedback_step "Approve" demo_feedback_state).pending_tasks
      = [{ source := "QA", feedback := some "QA findings" },
         { source := "Security", feedback := some "Security findings" }]
    ∧ "Approve" ≠ "approve" := by
  exact ⟨rfl, by decide⟩

/-- Claim C4 (amended): in the Feedback phase, if the operator input,
lowercased and stripped of surrounding whitespace, equals "approve", the
pending-feedback queue afterwards contains exactly the two automated entries
(source QA first, then source Security); for any other input a third entry
with source "Human Operator" and the exact, unnormalised input text is
appended after the two automated entries. -/
theorem feedback_gate_queue (s : OrchState) (input : String) :
    (py_strip (py_lower input) = "approve" →
      (feedback_step input s).pending_tasks
        = [{ source := "QA", feedback := s.qa_feedback },
           { source := "Security", feedback := s.security_feedback }])
    ∧ (py_strip (py_lower input) ≠ "approve" →
      (feedback_step input s).pending_tasks
        = [{ source := "QA", feedback := s.qa_feedback },
           { source := "Security", feedback := s.security_feedback },
           { source := "Human Operator", feedback := some input }]) := by
  constructor
  · intro h
    simp [feedback_step, h]
  · intro h
    simp [feedback_step, h]

/-- Witness for C4 (amended): "  APPROVE " normalises to the sentinel and
leaves exactly the two automated entries; "Add more logging" does not, and
the third entry carries that exact text. -/
theorem feedback_gate_queue_witness :
    (feedback_step "  APPROVE " demo_feedback_state).pending_tasks
      = [{ source := "QA", feedback := some "QA findings" },
         { source := "Security", feedback := some "Security findings" }]
    ∧ (feedback_step "Add more logging" demo_feedback_state).pending_tasks
      = [{ source := "QA", feedback := some "QA findings" },
         { source := "Security", feedback := some "Security findings" },
         { source := "Human Operator", feedback := some "Add more logging" }] :=
  ⟨(feedback_gate_queue demo_feedback_state "  APPROVE ").1 (by decide),
   (feedback_gate_queue demo_feedback_state "Add more logging").2 (by decide)⟩

/-- The decimal left fold of the Python `int()` conversion agrees with `Nat.ofDigits` on
the reversed digit-value list, for any accumulator. -/
theorem py_int_digits_eq_ofDigits (ds : List Char) :
    ∀ a : Nat, ds.foldl (fun n ch => 10 * n + (ch.toNat - 48)) a
      = Nat.ofDigits 10 ((ds.map fun ch => ch.toNat - 48).reverse) + a * 10 ^ ds.length := by
  induction ds with
  | nil => intro a; simp [Nat.ofDigits]
  | cons x xs ih =>
      intro a
      simp only [List.foldl_cons, List.map_cons, List.reverse_cons, List.length_cons]
      rw [ih, Nat.ofDigits_append]
      simp [Nat.ofDigits]
      ring

/-- Support for C6: even in the patched configuration in which the parse
block of `_check_confidence` actually runs, it does not implement the parse
the claim describes: for the response "1 out of 10" the first run of digits
is "1" (score 1, below the cycle-0 threshold 7, hence not-confident under
the claimed parse), but the block concatenates all digit characters into
"110" and reports confident. -/
theorem dead_parse_concatenates_digits :
    confidence_parse_block 0 "1 out of 10" = true
    ∧ spec_check_confidence 0 "1 out of 10" = false
    ∧ spec_first_run_score "1 out of 10" = some 1
    ∧ digit_concat_value "1 out of 10" = some 110 := by
  exact ⟨rfl, rfl, rfl, rfl⟩

/-- Support for C6: characterisation of the parse block — were it reached,
the score would be the concatenation of ALL digit characters of the response
read as one decimal numeral, the block would be confident exactly when that
numeral exists and meets the threshold, and a response with no digit at all
would be judged not-confident.  (`confidence_check_always_not_confident`
proves what the unpatched source actually does: never confident.) -/
theorem confidence_parse_all_digits (c : Nat) (resp : String) :
    ((∀ ch ∈ resp.data, ch.isDigit = false) → confidence_parse_block c resp = false)
    ∧ (confidence_parse_block c resp = true
        ↔ ∃ n, digit_concat_value resp = some n ∧ confidence_threshold c ≤ n) := by
  constructor
  · intro h
    have hf : resp.data.filter Char.isDigit = [] := by
      rw [List.filter_eq_nil_iff]
      intro ch hch
      simp [h ch hch]
    simp [confidence_parse_block, hf]
  · cases hf : resp.data.filter Char.isDigit with
    | nil => simp [confidence_parse_block, digit_concat_value, hf]
    | cons x xs =>
        have hval : py_int_digits (x :: xs)
            = Nat.ofDigits 10 (((x :: xs).map fun ch => ch.toNat - 48).reverse) := by
          have := py_int_digits_eq_ofDigits (x :: xs) 0
          simpa [py_int_digits] using this
        simp [confidence_parse_block, digit_concat_value, hf, hval]

/-- Concrete instance of the parse-block characterisation: a digit-free
response is judged not-confident. -/
theorem confidence_parse_all_digits_witness :
    confidence_parse_block 0 "no score to be found" = false :=
  (confidence_parse_all_digits 0 "no score to be found").1 (by decide)

/-- Claim C9 (evaluating the code at the failing input): driving a fresh run
from Idle to Completed with the goal text used by the workflow test shipped with the repository
performs zero `memory_manager.add_memory` exports — not the exactly-once
export the claim (and `tests/test_suite.py`, which asserts
`mock_add_memory.assert_called_once()`) requires; the true half of the claim
also evaluates as stated: calling `run_workflow` again on the completed state
executes no phase block, writes no checkpoint and leaves the persisted state
unchanged. -/
theorem completed_run_exports_nothing :
    (run_workflow demo_agents "approve" "Test a full workflow." fresh_state).memory_adds = []
    ∧ (run_workflow demo_agents "approve" "Test a full workflow." fresh_state).state.workflow_phase
        = Phase.completed
    ∧ (run_workflow demo_agents "approve" "Test a full workflow."
        (run_workflow demo_agents "approve" "Test a full workflow." fresh_state).state).state
      = (run_workflow demo_agents "approve" "Test a full workflow." fresh_state).state
    ∧ (run_workflow demo_agents "approve" "Test a full workflow."
        (run_workflow demo_agents "approve" "Test a full workflow." fresh_state).state).executed
      = []
    ∧ (run_workflow demo_agents "approve" "Test a full workflow."
        (run_workflow demo_agents "approve" "Test a full workflow." fresh_state).state).saves
      = []
    ∧ (run_workflow demo_agents "approve" "Test a full workflow."
        (run_workflow demo_agents "approve" "Test a full workflow." fresh_state).state).memory_adds
      = [] := by
  exact ⟨rfl, rfl, rfl, rfl, rfl, rfl⟩

/-- Claim C10: when the state file exists but reading or JSON-parsing it
fails, `_load_state` catches the error (nothing propagates — `load_state` is
a total function on the modelled outcomes) and the engine starts exactly the
fresh run it would start with no state file at all, with `workflow_phase`
Idle and every other attribute at its `__init__` default. -/
theorem load_state_fallback (e : String) :
    load_state (LoadOutcome.unreadable e) = load_state LoadOutcome.absent
    ∧ load_state LoadOutcome.absent = fresh_state
    ∧ fresh_state.workflow_phase = Phase.idle := by
  exact ⟨rfl, rfl, rfl⟩

/-- Claim C2, the code evaluated at the failing input: with every backend
configured and a linter reporting no issues, the faithful
`CoderAgent.execute_task` raises
`TypeError: _invoke_llm() got an unexpected keyword argument \x27model\x27`
in cycle 0, at the very first `_draft_initial_answer` call, and never returns
a draft — the bounded refinement loop the claim describes (proved of the
patched semantics in `trm_threshold_monotone_and_bounded`) is never entered.
The threshold arithmetic the claim states is as written in the source. -/
theorem coder_kwarg_crash :
    py_execute_task ⟨true, true, true⟩ demo_clients_ok (fun _ => none)
        "Build a simple calculator."
      = Except.error (kwarg_type_error "model")
    ∧ py_draft_initial_answer ⟨true, true, true⟩ demo_clients_ok
        "Build a simple calculator."
      = Except.error (kwarg_type_error "model")
    ∧ MAX_CYCLES = 16
    ∧ confidence_threshold 0 = 7
    ∧ confidence_threshold 4 = 8 := by
  exact ⟨rfl, rfl, rfl, rfl, rfl⟩

/-- Claim C5, the code evaluated at the failing input: the worker call
`self._invoke_llm(model=..., ...)` raises TypeError at the call site — before
the dispatcher body, so nothing is converted to text and no ledger entry is
written (first conjunct); the dispatcher itself, when actually entered, does
convert a raising capability call into the "ERROR: API call ... failed"
payload with a failed ledger entry (second conjunct — the design the claim
describes); the faithful coder therefore raises out of `execute_task` (third
conjunct) and the engine, which wraps no phase in `try`, aborts the
Generation phase with that exception instead of storing error text as the
artifact (fourth conjunct): a worker failure does reach the engine as an
exception. -/
theorem worker_failure_reaches_engine :
    invoke_llm_kwcall "model" ⟨true, true, true⟩ demo_clients_ok Family.codex
        "any prompt"
      = Except.error (kwarg_type_error "model")
    ∧ invoke_llm ⟨true, true, true⟩ demo_clients_err Family.claude "any prompt"
      = (api_error_text Family.claude "boom",
         [{ model_family := Family.claude, success := false, prompt := "any prompt",
            response := api_error_text Family.claude "boom" }])
    ∧ py_execute_task ⟨true, true, true⟩ demo_clients_ok (fun _ => none) "spec text"
      = Except.error (kwarg_type_error "model")
    ∧ generation_step_fallible
        (py_execute_task ⟨true, true, true⟩ demo_clients_ok (fun _ => none))
        demo_generation_state
      = Except.error (kwarg_type_error "model") := by
  exact ⟨rfl, rfl, rfl, rfl⟩

/-- Counterexample to C6 as stated: with every backend configured and a
backend that would answer "9" to any prompt, the claimed parse (first run of
digits) scores 9, which meets the cycle-0 threshold 7 — so the claim says
confident — but the faithful `_check_confidence` is not confident: its
`self._invoke_llm(model=..., ...)` call raises TypeError (third conjunct)
before any response is obtained, and the `except (ValueError, TypeError)`
clause turns that into a failing check. -/
theorem confidence_check_ignores_response_cex :
    py_check_confidence ⟨true, true, true⟩ (fun _ _ => Except.ok "9") 0 "draft code"
      = false
    ∧ spec_check_confidence 0 "9" = true
    ∧ invoke_llm_kwcall "model" ⟨true, true, true⟩ (fun _ _ => Except.ok "9")
        Family.codex (confidence_prompt "draft code")
      = Except.error (kwarg_type_error "model") := by
  exact ⟨rfl, rfl, rfl⟩

/-- Claim C6 (amended): in the refinement loop of the source as written, the
confidence check never parses a response at all — its dispatcher call raises
TypeError (keyword `model=` against parameter `preferred_model`), which the
`except (ValueError, TypeError)` clause converts to not-confident — so for
every backend behaviour, every cycle and every draft (in particular whenever
the response would contain no digit) the check evaluates to not-confident,
and it never throws an exception (`py_check_confidence` is total). -/
theorem confidence_check_always_not_confident (av : Avail)
    (cl : Family → String → Except String String) (c : Nat) (draft : String) :
    py_check_confidence av cl c draft = false := by
  unfold py_check_confidence invoke_llm_kwcall
  rw [if_neg (by decide)]

/-- Join semantics of the fallible review fan-out: when both workers return
normally, the phase completes with both named slots filled — each from its
own task — and never with a proper subset of the results. -/
theorem review_fanout_join_when_ok (qa security : String → Except String String)
    (s : OrchState) (q r : String)
    (hq : qa (py_str s.generated_code) = Except.ok q)
    (hs : security (py_str s.generated_code) = Except.ok r) :
    review_step_fallible qa security s
      = Except.ok { s with qa_feedback := some q, security_feedback := some r,
                           workflow_phase := Phase.feedback } := by
  unfold review_step_fallible
  rw [hq, hs]

/-- Claim C7, the code evaluated at the failing input: with every backend
configured, both real review workers raise
`TypeError: _invoke_llm() got an unexpected keyword argument \x27model\x27`
at their first `self._invoke_llm(model="gemini", ...)` call (first two
conjuncts), and `future.result()` re-raises it into `run_workflow`: the
Review phase aborts with the exception (third conjunct) — no slot receives
error text and the sibling result is lost, instead of the
error-text-in-slot, sibling-unaffected behaviour the claim describes. -/
theorem review_fanout_crashes_on_worker_type_error :
    py_qa_execute_task ⟨true, true, true⟩ demo_clients_ok
        (fun _ => (false, "no output")) "print(1)"
      = Except.error (kwarg_type_error "model")
    ∧ py_security_execute_task ⟨true, true, true⟩ demo_clients_ok "print(1)"
      = Except.error (kwarg_type_error "model")
    ∧ review_step_fallible
        (py_qa_execute_task ⟨true, true, true⟩ demo_clients_ok
          (fun _ => (false, "no output")))
        (py_security_execute_task ⟨true, true, true⟩ demo_clients_ok)
        demo_review_state
      = Except.error (kwarg_type_error "model") := by
  exact ⟨rfl, rfl, rfl⟩

end AgentOS
